import Mathlib

/-!
Shallow embedding of the agent WebSocket connection registry and command
dispatcher of the portal control plane, together with proofs about its
dispatch, registry, liveness and command-state behaviour.

Embedded source:
* `internal/services/websocket/service.go` — the `Service` struct with its
  connection map, command channel, dispatcher, health checker and message
  handling;
* `internal/api/handlers/websocket/handler.go` — `HandleAgentConnection`;
* the nodes inventory service (`GetNodeByHostname`, `UpdateNode`,
  `GetNodesByGroupID`);
* the remediation command-history service (`GetPendingCommands`,
  `GetPendingCommandsByHostname`, `UpdateCommandResult`, `CancelCommand`,
  `ValidateCommandType`).

Modelling conventions:
* timestamps are natural numbers counting seconds;
* a Go `*websocket.Conn` handle is identified by a natural-number
  connection id; calling `Close()` on a handle is recorded by consing its
  id onto a `closed` list;
* the Go map `connections map[string]*AgentConnection` is an association
  list; assignment replaces the entry with the same key exactly as a Go
  map assignment does, `delete` removes it;
* success of `Conn.WriteMessage` / `Conn.WriteControl` is an oracle
  `writeOk : Nat → Bool` (resp. `pingFails`) indexed by connection id,
  since the network is external to the program;
* the SQL `command_history` and `nodes` tables are lists of records; an
  SQL `UPDATE ... WHERE` is a `List.map` that rewrites the matching rows,
  a `SELECT ... WHERE` is a `List.filter`;
* the buffered channel `commandChan` is a FIFO list: send appends at the
  tail, the dispatcher loop receives from the head.
-/

deriving instance DecidableEq for Except

namespace Portal

/-- `Command` struct of the websocket service: a real-time command to be
sent to an agent.  `details` is opaque to the dispatcher and omitted.
Go's zero value `""` stands for an unset optional field. -/
structure Command where
  commandID : String
  command : String
  priority : String
  targetNode : String
  targetGroup : String
deriving DecidableEq, Repr

/-- Inventory row of the nodes service (the fields this subsystem reads or
writes). -/
structure Node where
  id : Nat
  hostname : String
  status : String
  isolated : Bool
  lastHeartbeat : Nat
deriving DecidableEq, Repr

/-- `AgentConnection` struct: a connected agent.  `connID` identifies the
underlying `*websocket.Conn` handle. -/
structure AgentConnection where
  nodeID : Nat
  hostname : String
  connID : Nat
  connected : Nat
  lastActivity : Nat
deriving DecidableEq, Repr

/-- A row of the `command_history` table used by the remediation service.
`resultSuccess`/`resultMessage` model the `result_details` JSON column. -/
structure CmdRecord where
  id : Nat
  nodeID : Nat
  commandType : String
  status : String
  resultSuccess : Option Bool
  resultMessage : Option String
  executedAt : Nat
  completedAt : Option Nat
deriving DecidableEq, Repr

/-- The mutable state of the websocket `Service` plus the external tables
it touches: the connection registry, the set of closed connection handles,
the `nodes` table, the `commandChan` queue, the log of successful writes
to agents, and the `command_history` table (the pending-command store of
the fallback polling channel). -/
structure ServiceState where
  connections : List (String × AgentConnection)
  closed : List Nat
  nodes : List Node
  queue : List Command
  delivered : List (String × Command)
  commandHistory : List CmdRecord
deriving DecidableEq, Repr

/-! ### Go map operations on the connection registry -/

/-- Go map read `s.connections[hostname]`. -/
def lookupKey : List (String × AgentConnection) → String → Option AgentConnection
  | [], _ => none
  | p :: t, k => if p.1 = k then some p.2 else lookupKey t k

/-- Go map assignment `s.connections[hostname] = agent`: replaces the entry
with the same key if present, otherwise inserts. -/
def mapInsert : List (String × AgentConnection) → String → AgentConnection → List (String × AgentConnection)
  | [], k, v => [(k, v)]
  | p :: t, k, v => if p.1 = k then (k, v) :: t else p :: mapInsert t k v

/-- Go `delete(s.connections, hostname)`. -/
def mapDelete : List (String × AgentConnection) → String → List (String × AgentConnection)
  | [], _ => []
  | p :: t, k => if p.1 = k then mapDelete t k else p :: mapDelete t k

/-- Number of registry entries held for one identity (in a Go map this is
always 0 or 1; the lemmas below prove the model keeps it so). -/
def keyCount : List (String × AgentConnection) → String → Nat
  | [], _ => 0
  | p :: t, k => (if p.1 = k then 1 else 0) + keyCount t k

/-- `lookupConn` is the registry read used by the dispatcher and the
urgent path (`s.mutex.RLock(); agent, exists := s.connections[h]`). -/
def lookupConn (s : ServiceState) (hostname : String) : Option AgentConnection :=
  lookupKey s.connections hostname

/-! ### Nodes inventory service -/

/-- `GetNodeByHostname`: `SELECT * FROM nodes WHERE hostname = $1`
(`sqlx.Get` returns an error when no row matches, modelled as `none`). -/
def GetNodeByHostname : List Node → String → Option Node
  | [], _ => none
  | n :: t, h => if n.hostname = h then some n else GetNodeByHostname t h

/-- The `UpdateNode` call made by the registry paths: it rewrites the row
with the node's id, setting `status` and (when given) `last_heartbeat`. -/
def setNodeStatus (nodes : List Node) (nodeID : Nat) (status : String) (heartbeat : Option Nat) : List Node :=
  nodes.map fun n =>
    if n.id = nodeID then
      { n with status := status, lastHeartbeat := heartbeat.getD n.lastHeartbeat }
    else n

/-- `GetNodesByGroupID`: join of `nodes` with `node_group_mapping` rows
`(node_id, group_id)` on the given group. -/
def GetNodesByGroupID (nodes : List Node) (mapping : List (Nat × Nat)) (groupID : Nat) : List Node :=
  nodes.filter fun n => mapping.any fun m => m.1 = n.id ∧ m.2 = groupID

/-! ### Remediation command-history service -/

/-- `GetPendingCommands`: `SELECT * FROM command_history WHERE node_id = $1
AND status = 'pending' ORDER BY executed_at` (the table list is kept in
`executed_at` insertion order). -/
def GetPendingCommands (db : List CmdRecord) (nodeID : Nat) : List CmdRecord :=
  db.filter fun r => r.nodeID = nodeID ∧ r.status = "pending"

/-- `GetPendingCommandsByHostname`: the same query joined with `nodes` on
hostname; this is the drain of the fallback polling channel. -/
def GetPendingCommandsByHostname (db : List CmdRecord) (nodes : List Node) (hostname : String) : List CmdRecord :=
  db.filter fun r =>
    (nodes.any fun n => n.id = r.nodeID ∧ n.hostname = hostname) ∧ r.status = "pending"

/-- `UpdateCommandResult`: determines success/failed from the report and
runs `UPDATE command_history SET status, result_details, completed_at
WHERE id = $4` — unconditionally, with no check of the current status. -/
def UpdateCommandResult (db : List CmdRecord) (commandID : Nat) (success : Bool) (message : String) (now : Nat) : List CmdRecord :=
  db.map fun r =>
    if r.id = commandID then
      { r with status := if success then "success" else "failed",
               resultSuccess := some success,
               resultMessage := some message,
               completedAt := some now }
    else r

/-- The `UPDATE` statement inside `CancelCommand`. -/
def cancelUpdate (db : List CmdRecord) (commandID : Nat) (now : Nat) : List CmdRecord :=
  db.map fun r =>
    if r.id = commandID then { r with status := "canceled", completedAt := some now } else r

/-- `CancelCommand`: reads the command's status (error when the row is
absent), rejects unless it is `pending`, otherwise marks it canceled and
stamps `completed_at`. -/
def CancelCommand (db : List CmdRecord) (commandID : Nat) (now : Nat) : Except String (List CmdRecord) :=
  match db.find? fun r => r.id = commandID with
  | none => Except.error "command not found"
  | some r =>
    if r.status = "pending" then Except.ok (cancelUpdate db commandID now)
    else Except.error "only pending commands can be canceled"

/-- `ValidateCommandType` of the remediation service: the `switch` over
the recognized command kinds. -/
def ValidateCommandType (cmdType : String) : Bool :=
  match cmdType with
  | "remove-file" | "quarantine-file" | "list-files" | "get-file-hash"
  | "revert-registry-key" | "set-registry-value" | "get-registry-value"
  | "export-registry-hive" | "kill-process" | "get-process-details"
  | "get-process-tree" | "scan-process-memory" | "isolate-host"
  | "unisolate-host" | "get-network-connections" | "block-ip"
  | "reboot-node" | "update-agent" | "uninstall-agent" | "get-system-info"
  | "collect-windows-logs" | "collect-fibratus-logs" | "clear-local-logs"
  | "enable-debug-logging" => true
  | _ => false

/-! ### WebSocket service operations -/

/-- `RegisterConnection`: looks the node up by hostname (error when the
inventory has no record), stores the new `AgentConnection` under the
hostname — replacing any previous entry, which is *not* closed — and
marks the node online with a fresh heartbeat. -/
def RegisterConnection (s : ServiceState) (hostname : String) (connID : Nat) (now : Nat) : Except String ServiceState :=
  match GetNodeByHostname s.nodes hostname with
  | none => Except.error "node not found"
  | some node =>
    let agent : AgentConnection := ⟨node.id, hostname, connID, now, now⟩
    Except.ok { s with connections := mapInsert s.connections hostname agent,
                       nodes := setNodeStatus s.nodes node.id "online" (some now) }

/-- `HandleAgentConnection` (HTTP handler) after a successful upgrade:
registers the connection with the service and closes the upgraded
connection when registration fails. -/
def HandleAgentConnection (s : ServiceState) (hostname : String) (connID : Nat) (now : Nat) : ServiceState :=
  match RegisterConnection s hostname connID now with
  | Except.ok s1 => s1
  | Except.error _ => { s with closed := connID :: s.closed }

/-- `SendCommand`: validates the command and queues it on `commandChan`.
The checks are exactly: non-empty id, non-empty command string, and at
least one of the two targets set. -/
def SendCommand (s : ServiceState) (cmd : Command) : Except String ServiceState :=
  if cmd.commandID = "" then Except.error "command ID is required"
  else if cmd.command = "" then Except.error "command type is required"
  else if cmd.targetNode = "" ∧ cmd.targetGroup = "" then
    Except.error "either target node or target group is required"
  else Except.ok { s with queue := s.queue ++ [cmd] }

/-- `sendCommandToAgent`: serializes the command and writes it on the
agent's connection; the write outcome is the `writeOk` oracle.  On
success the pair (hostname, command) is logged to `delivered`. -/
def sendCommandToAgent (writeOk : Nat → Bool) (s : ServiceState) (agent : AgentConnection) (cmd : Command) : Except String ServiceState :=
  if writeOk agent.connID then
    Except.ok { s with delivered := s.delivered ++ [(agent.hostname, cmd)] }
  else Except.error "failed to write message"

/-- `dispatchToNode`: registry lookup of the target.  When the target is
not connected the source only logs a warning — the marked persistence
step (`// TODO: Implement command persistence`) does not exist, so the
state is returned unchanged and the command is dropped.  A failed write
is likewise only logged. -/
def dispatchToNode (writeOk : Nat → Bool) (s : ServiceState) (cmd : Command) : ServiceState :=
  match lookupConn s cmd.targetNode with
  | none => s
  | some agent =>
    match sendCommandToAgent writeOk s agent cmd with
    | Except.ok s1 => s1
    | Except.error _ => s

/-- `dispatchToGroup`: the source only logs `Group-based command dispatch
not yet implemented` — no membership query, no deliveries. -/
def dispatchToGroup (s : ServiceState) (_cmd : Command) : ServiceState := s

/-- One iteration of the `commandDispatcher` loop: receive the next
command from `commandChan` and route it by target kind. -/
def commandDispatcherStep (writeOk : Nat → Bool) (s : ServiceState) : ServiceState :=
  match s.queue with
  | [] => s
  | cmd :: rest =>
    let s1 := { s with queue := rest }
    if ¬ cmd.targetNode = "" then dispatchToNode writeOk s1 cmd
    else if ¬ cmd.targetGroup = "" then dispatchToGroup s1 cmd
    else s1

/-- The isolation command built by `SendIsolationCommand`. -/
def isolationCommand (hostname : String) (now : Nat) : Command :=
  ⟨"isolate-" ++ toString now, "isolate-host", "critical", hostname, ""⟩

/-- `SendIsolationCommand` (the urgent path): when the agent is connected
it writes immediately; when it is not, it pushes the command back onto
the in-memory `commandChan` and reports the error
`agent not currently connected, command queued`. -/
def SendIsolationCommand (writeOk : Nat → Bool) (s : ServiceState) (hostname : String) (now : Nat) : ServiceState × Except String Unit :=
  let cmd := isolationCommand hostname now
  match lookupConn s hostname with
  | none =>
    ({ s with queue := s.queue ++ [cmd] },
     Except.error "agent not currently connected, command queued")
  | some agent =>
    match sendCommandToAgent writeOk s agent cmd with
    | Except.ok s1 => (s1, Except.ok ())
    | Except.error e => (s, Except.error e)

/-- `unregisterConnection`: keyed by hostname only.  Whatever connection
is currently registered for the hostname is closed and removed; the
deferred offline transition is `offlineSweep` below. -/
def unregisterConnection (s : ServiceState) (hostname : String) : ServiceState :=
  match lookupConn s hostname with
  | none => s
  | some agent =>
    { s with closed := agent.connID :: s.closed,
             connections := mapDelete s.connections hostname }

/-- The goroutine body run 30 seconds after an unregister: when the agent
has not reconnected, its node row is marked offline. -/
def offlineSweep (s : ServiceState) (hostname : String) : ServiceState :=
  match lookupConn s hostname with
  | some _ => s
  | none =>
    match GetNodeByHostname s.nodes hostname with
    | none => s
    | some node => { s with nodes := setNodeStatus s.nodes node.id "offline" none }

/-- The per-connection body of `checkConnections`: the source pings when
idle beyond 2 minutes and pings again when idle beyond 30 seconds, and in
either branch schedules `unregisterConnection` only when the ping
`WriteControl` fails. -/
def connectionEvicted (pingFails : Nat → Bool) (now : Nat) (agent : AgentConnection) : Bool :=
  (decide (120 < now - agent.lastActivity) && pingFails agent.connID)
  || (decide (30 < now - agent.lastActivity) && pingFails agent.connID)

/-- `checkConnections`: one sweep of the health checker; returns the
hostnames handed to `unregisterConnection`. -/
def checkConnections (pingFails : Nat → Bool) (s : ServiceState) (now : Nat) : List String :=
  (s.connections.filter fun p => connectionEvicted pingFails now p.2).map fun p => p.1

/-! ### The specification's submit-rejection predicate

Stated from the spec's words (§4.3: rejected when `id` is empty, `type`
is unrecognized, or `target` violates the exactly-one invariant), for
comparison with `SendCommand` above. -/

/-- The spec's exactly-one target invariant. -/
def specExactlyOneTarget (cmd : Command) : Prop :=
  (¬ cmd.targetNode = "" ∧ cmd.targetGroup = "") ∨ (cmd.targetNode = "" ∧ ¬ cmd.targetGroup = "")

/-- The spec's rejection condition for `submit`. -/
def specSubmitRejected (cmd : Command) : Prop :=
  cmd.commandID = "" ∨ ¬ ValidateCommandType cmd.command = true ∨ ¬ specExactlyOneTarget cmd

instance : DecidablePred specExactlyOneTarget := fun cmd => by
  unfold specExactlyOneTarget; infer_instance

instance : DecidablePred specSubmitRejected := fun cmd => by
  unfold specSubmitRejected; infer_instance

/-! ### Concrete states used by the counterexamples and witnesses -/

/-- Inventory row for agent `h1`. -/
def nodeH1 : Node := ⟨1, "h1", "online", false, 0⟩

/-- State for the C1 scenario: `h1` is known to the inventory but has no
live connection; every queue and table is empty. -/
def c1State : ServiceState := ⟨[], [], [nodeH1], [], [], []⟩

/-- An isolation command targeting `h1`. -/
def c1Cmd : Command := ⟨"cmd-1", "isolate-host", "critical", "h1", ""⟩

/-- State for the C1 write-failure case: `h1` is connected (handle 1). -/
def c1StateConn : ServiceState := ⟨[("h1", ⟨1, "h1", 1, 0, 0⟩)], [], [nodeH1], [], [], []⟩

/-- State with one live connection for `h1` (handle 1, last activity 0). -/
def c3State : ServiceState := ⟨[("h1", ⟨1, "h1", 1, 0, 0⟩)], [], [nodeH1], [], [], []⟩

/-- A normal-priority command targeting `h1`. -/
def c3Normal : Command := ⟨"n1", "list-files", "normal", "h1", ""⟩

/-- A critical-priority command targeting `h1`. -/
def c3Critical : Command := ⟨"c1", "isolate-host", "critical", "h1", ""⟩

/-- Two inventory rows for the C4 group scenario. -/
def c4Nodes : List Node := [⟨1, "h1", "online", false, 0⟩, ⟨2, "h2", "online", false, 0⟩]

/-- `node_group_mapping` rows: both nodes belong to group 7. -/
def c4Mapping : List (Nat × Nat) := [(1, 7), (2, 7)]

/-- State for C4: both group members are connected. -/
def c4State : ServiceState :=
  ⟨[("h1", ⟨1, "h1", 1, 0, 0⟩), ("h2", ⟨2, "h2", 2, 0, 0⟩)], [], c4Nodes, [], [], []⟩

/-- A group-targeted command for group 7. -/
def c4Cmd : Command := ⟨"g-cmd-1", "kill-process", "normal", "", "7"⟩

/-- A completed `command_history` row (terminal state, result recorded). -/
def c5Rec : CmdRecord := ⟨1, 1, "isolate-host", "success", some true, some "ok", 0, some 10⟩

/-- A pending `command_history` row. -/
def c9Pending : CmdRecord := ⟨1, 1, "isolate-host", "pending", none, none, 0, none⟩

/-- A running (already sent) `command_history` row. -/
def c9Running : CmdRecord := ⟨2, 1, "kill-process", "running", none, none, 0, none⟩

/-- The connection superseded in the C8 scenario (handle 1). -/
def c8A1 : AgentConnection := ⟨1, "h1", 1, 0, 0⟩

/-- The superseding connection of the C8 scenario (handle 2). -/
def c8A2 : AgentConnection := ⟨1, "h1", 2, 5, 5⟩

/-- C8 initial state: handle 1 registered for `h1`. -/
def c8S0 : ServiceState := ⟨[("h1", c8A1)], [], [nodeH1], [], [], []⟩

/-- C8 state after handle 2 superseded handle 1. -/
def c8S1 : ServiceState := ⟨[("h1", c8A2)], [], [⟨1, "h1", "online", false, 5⟩], [], [], []⟩

/-- C10 state: the inventory knows `h2` but not `h1`. -/
def c10S : ServiceState := ⟨[], [], [⟨1, "h2", "online", false, 0⟩], [], [], []⟩

/-! ### Helper lemmas on the registry map -/

theorem lookupKey_mapInsert_self (l : List (String × AgentConnection)) (k : String) (v : AgentConnection) :
    lookupKey (mapInsert l k v) k = some v := by
  induction l with
  | nil => simp [mapInsert, lookupKey]
  | cons p t ih =>
    by_cases hp : p.1 = k <;> simp [mapInsert, lookupKey, hp, ih]

theorem keyCount_mapInsert_self (l : List (String × AgentConnection)) (k : String) (v : AgentConnection) :
    keyCount l k ≤ 1 → keyCount (mapInsert l k v) k = 1 := by
  induction l with
  | nil => intro _; simp [mapInsert, keyCount]
  | cons p t ih =>
    intro hle
    by_cases hp : p.1 = k
    · simp only [keyCount, if_pos hp] at hle
      have ht : keyCount t k = 0 := by omega
      simp [mapInsert, hp, keyCount, ht]
    · simp only [keyCount, if_neg hp] at hle
      simp [mapInsert, hp, keyCount, ih (by omega)]

theorem keyCount_mapInsert_other (l : List (String × AgentConnection)) (k : String) (v : AgentConnection)
    (k' : String) (hne : ¬ k' = k) : keyCount (mapInsert l k v) k' = keyCount l k' := by
  induction l with
  | nil =>
    have : ¬ k = k' := fun h => hne h.symm
    simp [mapInsert, keyCount, this]
  | cons p t ih =>
    by_cases hp : p.1 = k
    · have hk : ¬ k = k' := fun h => hne h.symm
      have hp' : ¬ p.1 = k' := by rw [hp]; exact hk
      simp [mapInsert, hp, keyCount, hk, hp']
    · simp [mapInsert, hp, keyCount, ih]

theorem lookupKey_mapDelete_self (l : List (String × AgentConnection)) (k : String) :
    lookupKey (mapDelete l k) k = none := by
  induction l with
  | nil => simp [mapDelete, lookupKey]
  | cons p t ih =>
    by_cases hp : p.1 = k <;> simp [mapDelete, lookupKey, hp, ih]

theorem keyCount_mapDelete_self (l : List (String × AgentConnection)) (k : String) :
    keyCount (mapDelete l k) k = 0 := by
  induction l with
  | nil => simp [mapDelete, keyCount]
  | cons p t ih =>
    by_cases hp : p.1 = k <;> simp [mapDelete, keyCount, hp, ih]

theorem keyCount_pos_of_mem (l : List (String × AgentConnection)) (k : String) (a : AgentConnection)
    (h : (k, a) ∈ l) : 1 ≤ keyCount l k := by
  induction l with
  | nil => cases h
  | cons p t ih =>
    rcases List.mem_cons.mp h with hh | ht
    · subst hh; simp [keyCount]
    · have := ih ht
      by_cases hp : p.1 = k <;> first
      | (simp [keyCount, hp]; omega)
      | simp [keyCount, hp]

theorem keyCount_le_one_unique (l : List (String × AgentConnection)) (k : String)
    (hle : keyCount l k ≤ 1) (a b : AgentConnection)
    (ha : (k, a) ∈ l) (hb : (k, b) ∈ l) : a = b := by
  induction l with
  | nil => cases ha
  | cons p t ih =>
    rcases List.mem_cons.mp ha with hha | hta <;> rcases List.mem_cons.mp hb with hhb | htb
    · rw [← hhb] at hha; exact congrArg Prod.snd hha
    · exfalso
      have h1 := keyCount_pos_of_mem t k b htb
      rw [← hha] at hle
      simp [keyCount] at hle
      omega
    · exfalso
      have h1 := keyCount_pos_of_mem t k a hta
      rw [← hhb] at hle
      simp [keyCount] at hle
      omega
    · refine ih ?_ hta htb
      by_cases hp : p.1 = k
      · simp only [keyCount, if_pos hp] at hle; omega
      · simp only [keyCount, if_neg hp] at hle; omega

/-! ### Helper lemmas on dispatch and the tables -/

theorem dispatchToNode_queue (writeOk : Nat → Bool) (s : ServiceState) (cmd : Command) :
    (dispatchToNode writeOk s cmd).queue = s.queue := by
  unfold dispatchToNode sendCommandToAgent
  cases lookupConn s cmd.targetNode with
  | none => rfl
  | some agent => by_cases hw : writeOk agent.connID <;> simp [hw]

theorem connectionEvicted_iff (pingFails : Nat → Bool) (now : Nat) (a : AgentConnection) :
    connectionEvicted pingFails now a = true ↔
      30 < now - a.lastActivity ∧ pingFails a.connID = true := by
  by_cases hpf : pingFails a.connID = true <;> first
  | (simp [connectionEvicted, hpf, Bool.and_eq_true, decide_eq_true_eq]; omega)
  | simp [connectionEvicted, hpf, Bool.and_eq_true, decide_eq_true_eq]

theorem mem_checkConnections_iff (pingFails : Nat → Bool) (s : ServiceState) (now : Nat) (h : String) :
    h ∈ checkConnections pingFails s now ↔
      ∃ a, (h, a) ∈ s.connections ∧ 30 < now - a.lastActivity ∧ pingFails a.connID = true := by
  unfold checkConnections
  simp only [List.mem_map, List.mem_filter]
  constructor
  · rintro ⟨⟨k, a⟩, ⟨hmem, hev⟩, rfl⟩
    exact ⟨a, hmem, (connectionEvicted_iff pingFails now a).mp hev⟩
  · rintro ⟨a, hmem, hcond⟩
    exact ⟨(h, a), ⟨hmem, (connectionEvicted_iff pingFails now a).mpr hcond⟩, rfl⟩

theorem GetNodeByHostname_map_preserving (f : Node → Node) (hf : ∀ n, (f n).hostname = n.hostname)
    (nodes : List Node) (h : String) :
    GetNodeByHostname (nodes.map f) h = (GetNodeByHostname nodes h).map f := by
  induction nodes with
  | nil => rfl
  | cons n t ih =>
    simp only [List.map_cons]
    unfold GetNodeByHostname
    rw [hf n]
    by_cases hn : n.hostname = h <;> simp [hn, ih]

theorem GetNodeByHostname_setNodeStatus (nodes : List Node) (nid : Nat) (st : String) (hb : Option Nat)
    (h : String) (node : Node) (hfind : GetNodeByHostname nodes h = some node) :
    GetNodeByHostname (setNodeStatus nodes nid st hb) h
      = some (if node.id = nid then
          { node with status := st, lastHeartbeat := hb.getD node.lastHeartbeat } else node) := by
  unfold setNodeStatus
  rw [GetNodeByHostname_map_preserving _
    (fun m => by by_cases hid : m.id = nid <;> simp [hid]) nodes h, hfind]
  rfl

/-! ### Claim C1 -/

/-- C1, evaluated at the failing input: agent `h1` has a node record but
no live connection.  `dispatchToNode` returns the state unchanged (the
persistence step is an unimplemented TODO in the source), so nothing
reaches the pending-command store and the drain for `h1` stays empty;
with a connection whose write fails, the command is likewise dropped;
the urgent isolation path reports `agent not currently connected, command
queued` but only requeues onto the in-memory channel, after which the
dispatcher drops the command, returning the service to its initial state
with nothing delivered and nothing pending. -/
theorem c1_dispatch_drops_disconnected_command :
    dispatchToNode (fun _ => true) c1State c1Cmd = c1State ∧
    GetPendingCommandsByHostname (dispatchToNode (fun _ => true) c1State c1Cmd).commandHistory
      (dispatchToNode (fun _ => true) c1State c1Cmd).nodes "h1" = [] ∧
    dispatchToNode (fun _ => false) c1StateConn c1Cmd = c1StateConn ∧
    (SendIsolationCommand (fun _ => true) c1State "h1" 5).2
      = Except.error "agent not currently connected, command queued" ∧
    commandDispatcherStep (fun _ => true) (SendIsolationCommand (fun _ => true) c1State "h1" 5).1
      = c1State := by decide

/-! ### Claim C2 -/

/-- C2 counterexample: registering a second connection (handle 2) for
`h1`, which already holds handle 1, replaces the map entry but closes
nothing: the resulting state has an empty closed-handle list, refuting
"the old connection is closed and the entry is replaced". -/
theorem c2_old_connection_not_closed_on_reregister :
    RegisterConnection c8S0 "h1" 2 5 = Except.ok c8S1 ∧ c8S1.closed = [] := by decide

/-- C2 (amended): at most one live connection is registered per identity
at every instant — a successful re-register leaves exactly one entry for
the identity and the counts of all other identities unchanged, and the
entry now holds the new connection — but the superseded connection is
*not* closed by register (the closed-handle list is untouched). -/
theorem c2_register_replaces_and_preserves_uniqueness
    (s : ServiceState) (hostname : String) (connID now : Nat)
    (hone : keyCount s.connections hostname ≤ 1) :
    ∀ s1, RegisterConnection s hostname connID now = Except.ok s1 →
      (∃ node, GetNodeByHostname s.nodes hostname = some node ∧
        lookupConn s1 hostname = some ⟨node.id, hostname, connID, now, now⟩) ∧
      keyCount s1.connections hostname = 1 ∧
      (∀ k, ¬ k = hostname → keyCount s1.connections k = keyCount s.connections k) ∧
      s1.closed = s.closed := by
  intro s1 hreg
  unfold RegisterConnection at hreg
  cases hnode : GetNodeByHostname s.nodes hostname with
  | none => rw [hnode] at hreg; cases hreg
  | some node =>
    rw [hnode] at hreg
    simp only [Except.ok.injEq] at hreg
    subst hreg
    refine ⟨⟨node, rfl, lookupKey_mapInsert_self _ _ _⟩,
      keyCount_mapInsert_self _ _ _ hone, fun k hk => keyCount_mapInsert_other _ _ _ _ hk, rfl⟩

/-- Witness for C2: the amended statement evaluated on the concrete
supersession scenario. -/
theorem c2_register_witness :
    (∃ node, GetNodeByHostname c8S0.nodes "h1" = some node ∧
      lookupConn c8S1 "h1" = some ⟨node.id, "h1", 2, 5, 5⟩) ∧
    keyCount c8S1.connections "h1" = 1 ∧
    (∀ k, ¬ k = "h1" → keyCount c8S1.connections k = keyCount c8S0.connections k) ∧
    c8S1.closed = c8S0.closed :=
  c2_register_replaces_and_preserves_uniqueness c8S0 "h1" 2 5 (by decide) c8S1 (by decide)

/-! ### Claim C3 -/

/-- C3 counterexample: a normal-priority command submitted first is taken
and delivered by the dispatcher while a critical-priority command is
still queued behind it — there is only one FIFO channel, refuting the
strict-priority claim. -/
theorem c3_normal_dispatched_before_queued_critical :
    SendCommand c3State c3Normal = Except.ok { c3State with queue := [c3Normal] } ∧
    SendCommand { c3State with queue := [c3Normal] } c3Critical
      = Except.ok { c3State with queue := [c3Normal, c3Critical] } ∧
    commandDispatcherStep (fun _ => true) { c3State with queue := [c3Normal, c3Critical] }
      = { c3State with queue := [c3Critical], delivered := [("h1", c3Normal)] } := by decide

/-- C3 (amended): outbound commands are held on a single FIFO queue
(`commandChan`, capacity 1000): acceptance appends at the tail, the
dispatcher always consumes the head — submission order is preserved and
priority plays no role in dispatch order. -/
theorem c3_single_fifo_queue (writeOk : Nat → Bool) (s : ServiceState) (cmd c : Command)
    (rest : List Command) :
    (∀ s1, SendCommand s cmd = Except.ok s1 → s1.queue = s.queue ++ [cmd]) ∧
    (s.queue = c :: rest → (commandDispatcherStep writeOk s).queue = rest) := by
  constructor
  · intro s1 h
    unfold SendCommand at h
    split_ifs at h
    injection h with h2
    rw [← h2]
  · intro hq
    unfold commandDispatcherStep
    rw [hq]
    by_cases h1 : ¬ c.targetNode = ""
    · simp only [if_pos h1]
      exact dispatchToNode_queue writeOk _ c
    · simp only [if_neg h1]
      by_cases h2 : ¬ c.targetGroup = "" <;> simp [h2, dispatchToGroup]

/-- Witness for C3: the FIFO step evaluated on the two-command queue. -/
theorem c3_fifo_witness :
    (commandDispatcherStep (fun _ => true) { c3State with queue := [c3Normal, c3Critical] }).queue
      = [c3Critical] :=
  (c3_single_fifo_queue (fun _ => true) { c3State with queue := [c3Normal, c3Critical] }
    c3Normal c3Normal [c3Critical]).2 rfl

/-! ### Claim C4 -/

/-- C4, evaluated at the failing input: group 7 has two members, both
with live connections, yet `dispatchToGroup` performs zero delivery
attempts (the source only logs "Group-based command dispatch not yet
implemented") — the number of attempts does not equal the membership
snapshot size. -/
theorem c4_group_dispatch_attempts_no_deliveries :
    (GetNodesByGroupID c4Nodes c4Mapping 7).length = 2 ∧
    dispatchToGroup c4State c4Cmd = c4State ∧
    commandDispatcherStep (fun _ => true) { c4State with queue := [c4Cmd] } = c4State ∧
    (commandDispatcherStep (fun _ => true) { c4State with queue := [c4Cmd] }).delivered.length = 0 := by
  decide

/-! ### Claim C5 -/

/-- C5 counterexample: a duplicate completion report for command 1, which
is already terminal (`success`, completed at 10), is not a no-op: the
stored status flips to `failed`, the result is replaced and the
completion timestamp moves to 20. -/
theorem c5_duplicate_completion_overwrites :
    UpdateCommandResult [c5Rec] 1 false "dup" 20
      = [⟨1, 1, "isolate-host", "failed", some false, some "dup", 0, some 20⟩] := by decide

/-- C5 (amended): `UpdateCommandResult` unconditionally overwrites the
status, result and completion timestamp of every row with the reported
id — duplicate completion reports are accepted without error but are not
no-ops: the last report wins; rows with other ids are untouched. -/
theorem c5_update_result_last_report_wins
    (db : List CmdRecord) (cid : Nat) (success : Bool) (msg : String) (now : Nat)
    (r : CmdRecord) (hmem : r ∈ db) :
    (r.id = cid →
      { r with status := if success then "success" else "failed",
               resultSuccess := some success, resultMessage := some msg,
               completedAt := some now } ∈ UpdateCommandResult db cid success msg now) ∧
    (¬ r.id = cid → r ∈ UpdateCommandResult db cid success msg now) := by
  constructor
  · intro hid
    have h2 := List.mem_map_of_mem
      (fun x : CmdRecord => if x.id = cid then
        { x with status := if success then "success" else "failed",
                 resultSuccess := some success, resultMessage := some msg,
                 completedAt := some now } else x) hmem
    simpa [UpdateCommandResult, hid] using h2
  · intro hid
    have h2 := List.mem_map_of_mem
      (fun x : CmdRecord => if x.id = cid then
        { x with status := if success then "success" else "failed",
                 resultSuccess := some success, resultMessage := some msg,
                 completedAt := some now } else x) hmem
    simpa [UpdateCommandResult, hid] using h2

/-- Witness for C5: the overwrite evaluated on the already-completed
row. -/
theorem c5_update_witness :
    ({ c5Rec with status := if false then "success" else "failed",
                  resultSuccess := some false, resultMessage := some "dup",
                  completedAt := some 20 } : CmdRecord)
      ∈ UpdateCommandResult [c5Rec] 1 false "dup" 20 :=
  (c5_update_result_last_report_wins [c5Rec] 1 false "dup" 20 c5Rec (by simp)).1 rfl

/-! ### Claim C6 -/

/-- C6 counterexample: a connection idle for 3 minutes (180 s) whose ping
write succeeds is not evicted by the sweep — `checkConnections` hands
nothing to `unregisterConnection`, refuting "2 minutes idle with no
response to a prior ping is treated as dead". -/
theorem c6_idle_connection_with_good_ping_not_evicted :
    checkConnections (fun _ => false) c3State 180 = [] := by decide

/-- C6 (amended): the sweep evicts exactly the connections idle for more
than 30 seconds whose ping write fails; in particular a connection whose
last activity is within the 30-second idle threshold is never evicted
(given the at-most-one-entry registry invariant), and once a hostname is
unregistered and not re-registered, the grace-window sweep marks its node
row offline. -/
theorem c6_monitor_evicts_only_on_ping_failure
    (pingFails : Nat → Bool) (s : ServiceState) (now : Nat) (h : String)
    (a : AgentConnection) (node : Node) :
    ((h, a) ∈ s.connections → keyCount s.connections h ≤ 1 →
      now - a.lastActivity ≤ 30 → ¬ h ∈ checkConnections pingFails s now) ∧
    (h ∈ checkConnections pingFails s now ↔
      ∃ a2, (h, a2) ∈ s.connections ∧ 30 < now - a2.lastActivity ∧ pingFails a2.connID = true) ∧
    (lookupConn s h = none → GetNodeByHostname s.nodes h = some node →
      GetNodeByHostname (offlineSweep s h).nodes h = some { node with status := "offline" }) := by
  refine ⟨?_, mem_checkConnections_iff pingFails s now h, ?_⟩
  · intro hmem hone hidle hin
    rcases (mem_checkConnections_iff pingFails s now h).mp hin with ⟨a2, hmem2, hgt, _⟩
    have : a = a2 := keyCount_le_one_unique s.connections h hone a a2 hmem hmem2
    rw [← this] at hgt
    omega
  · intro hlk hfind
    unfold offlineSweep
    rw [hlk, hfind]
    have := GetNodeByHostname_setNodeStatus s.nodes node.id "offline" none h node hfind
    rw [if_pos rfl] at this
    exact this

/-- Witness for C6: the amended statement evaluated on a connection idle
for 40 seconds whose ping write fails, which the sweep does evict. -/
theorem c6_monitor_witness :
    "h1" ∈ checkConnections (fun _ => true) c3State 41 :=
  (c6_monitor_evicts_only_on_ping_failure (fun _ => true) c3State 41 "h1"
    c8A1 nodeH1).2.1.mpr ⟨⟨1, "h1", 1, 0, 0⟩, by decide, by decide, rfl⟩

/-! ### Claim C7 -/

/-- C7 counterexample: a command whose type is not a recognized kind and
whose target sets both the node and the group — rejected by the spec's
condition — is accepted and enqueued by `SendCommand`, which never
consults the recognized kinds and only requires at least one target. -/
theorem c7_both_targets_accepted :
    specSubmitRejected ⟨"cmd-1", "self-destruct", "normal", "h1", "g1"⟩ ∧
    SendCommand c3State ⟨"cmd-1", "self-destruct", "normal", "h1", "g1"⟩
      = Except.ok { c3State with
          queue := [⟨"cmd-1", "self-destruct", "normal", "h1", "g1"⟩] } := by decide

/-- C7 (amended): `SendCommand` rejects — and does not enqueue — exactly
when the id is empty, the command string is empty, or both targets are
empty; otherwise it accepts and appends the command to the queue.  It
does not validate the type against the recognized command kinds and does
not reject a command with both targets set. -/
theorem c7_send_command_validation (s : ServiceState) (cmd : Command) :
    ((∃ e, SendCommand s cmd = Except.error e) ↔
      (cmd.commandID = "" ∨ cmd.command = "" ∨ (cmd.targetNode = "" ∧ cmd.targetGroup = ""))) ∧
    (¬ (cmd.commandID = "" ∨ cmd.command = "" ∨ (cmd.targetNode = "" ∧ cmd.targetGroup = "")) →
      SendCommand s cmd = Except.ok { s with queue := s.queue ++ [cmd] }) := by
  unfold SendCommand
  split_ifs with h1 h2 h3
  · exact ⟨iff_of_true ⟨_, rfl⟩ (Or.inl h1), fun hn => absurd (Or.inl h1) hn⟩
  · exact ⟨iff_of_true ⟨_, rfl⟩ (Or.inr (Or.inl h2)), fun hn => absurd (Or.inr (Or.inl h2)) hn⟩
  · exact ⟨iff_of_true ⟨_, rfl⟩ (Or.inr (Or.inr h3)), fun hn => absurd (Or.inr (Or.inr h3)) hn⟩
  · refine ⟨iff_of_false ?_ ?_, fun _ => rfl⟩
    · rintro ⟨e, he⟩
      cases he
    · rintro (h | h | h)
      exacts [h1 h, h2 h, h3 h]

/-- Witness for C7: the validation characterization evaluated on a
well-formed single-target command. -/
theorem c7_validation_witness :
    SendCommand c1State c1Cmd = Except.ok { c1State with queue := c1State.queue ++ [c1Cmd] } :=
  (c7_send_command_validation c1State c1Cmd).2 (by decide)

/-! ### Claim C8 -/

/-- C8 counterexample: handle 2 supersedes handle 1 for `h1`; when the
read loop of the superseded handle 1 exits, its deferred cleanup calls
`unregisterConnection "h1"`, which removes and closes the *newer* current
connection (handle 2) — there is no passed-handle guard. -/
theorem c8_superseded_cleanup_closes_new_connection :
    RegisterConnection c8S0 "h1" 2 5 = Except.ok c8S1 ∧
    unregisterConnection c8S1 "h1" = { c8S1 with connections := [], closed := [2] } ∧
    lookupConn (unregisterConnection c8S1 "h1") "h1" = none := by decide

/-- C8 (amended): `unregisterConnection` is keyed by hostname only and
unconditionally removes and closes whatever connection is currently
registered for that hostname — so the cleanup of a superseded read loop
removes and closes the newer, current connection rather than being a
no-op. -/
theorem c8_unregister_removes_current_unconditionally
    (s : ServiceState) (h : String) (a : AgentConnection) (hcur : lookupConn s h = some a) :
    unregisterConnection s h
      = { s with closed := a.connID :: s.closed, connections := mapDelete s.connections h } ∧
    lookupConn (unregisterConnection s h) h = none := by
  have h1 : unregisterConnection s h
      = { s with closed := a.connID :: s.closed, connections := mapDelete s.connections h } := by
    unfold unregisterConnection
    rw [hcur]
  refine ⟨h1, ?_⟩
  rw [h1]
  exact lookupKey_mapDelete_self s.connections h

/-- Witness for C8: the amended statement evaluated on the superseded
state. -/
theorem c8_unregister_witness :
    unregisterConnection c8S1 "h1"
      = { c8S1 with closed := c8A2.connID :: c8S1.closed,
                    connections := mapDelete c8S1.connections "h1" } ∧
    lookupConn (unregisterConnection c8S1 "h1") "h1" = none :=
  c8_unregister_removes_current_unconditionally c8S1 "h1" c8A2 (by decide)

/-! ### Claim C9 -/

/-- C9: cancellation succeeds only for a command still `pending`: a
non-pending command yields an error (and, the model's `UPDATE` never
running, no row changes), while canceling a pending command stamps the
row `canceled` with a completion timestamp and removes it from every
pending-command drain, so it is never delivered over the polling
channel. -/
theorem c9_cancel_only_pending (db : List CmdRecord) (cid now : Nat) (r : CmdRecord)
    (hfind : db.find? (fun c => c.id = cid) = some r) :
    (¬ r.status = "pending" →
      CancelCommand db cid now = Except.error "only pending commands can be canceled") ∧
    (r.status = "pending" →
      CancelCommand db cid now = Except.ok (cancelUpdate db cid now) ∧
      { r with status := "canceled", completedAt := some now } ∈ cancelUpdate db cid now ∧
      ∀ nid c, c ∈ GetPendingCommands (cancelUpdate db cid now) nid → ¬ c.id = cid) := by
  have hcc : CancelCommand db cid now
      = if r.status = "pending" then Except.ok (cancelUpdate db cid now)
        else Except.error "only pending commands can be canceled" := by
    unfold CancelCommand
    rw [hfind]
  constructor
  · intro hnp
    rw [hcc, if_neg hnp]
  · intro hp
    have hmem : r ∈ db := List.mem_of_find?_eq_some hfind
    have hid : r.id = cid := by
      have := List.find?_some hfind
      simpa using this
    refine ⟨by rw [hcc, if_pos hp], ?_, ?_⟩
    · have h2 := List.mem_map_of_mem
        (fun x : CmdRecord => if x.id = cid then
          { x with status := "canceled", completedAt := some now } else x) hmem
      simpa [cancelUpdate, hid] using h2
    · intro nid c hc
      intro hcid
      have hc2 : c ∈ cancelUpdate db cid now ∧ c.nodeID = nid ∧ c.status = "pending" := by
        simpa [GetPendingCommands, List.mem_filter] using hc
      rcases List.mem_map.mp hc2.1 with ⟨c0, hc0mem, hc0eq⟩
      have hpend : c.status = "pending" := hc2.2.2
      by_cases h0 : c0.id = cid
      · rw [if_pos h0] at hc0eq
        rw [← hc0eq] at hpend
        simp at hpend
      · rw [if_neg h0] at hc0eq
        rw [← hc0eq] at hcid
        exact h0 hcid

/-- Witness for C9: both branches evaluated on a two-row table holding a
pending and a running command. -/
theorem c9_cancel_witness :
    CancelCommand [c9Pending, c9Running] 2 20
      = Except.error "only pending commands can be canceled" ∧
    CancelCommand [c9Pending, c9Running] 1 20
      = Except.ok (cancelUpdate [c9Pending, c9Running] 1 20) :=
  ⟨(c9_cancel_only_pending [c9Pending, c9Running] 2 20 c9Running (by decide)).1 (by decide),
   ((c9_cancel_only_pending [c9Pending, c9Running] 1 20 c9Pending (by decide)).2 rfl).1⟩

/-! ### Claim C10 -/

/-- C10: registering a connection for a hostname with no node record in
the inventory fails: `RegisterConnection` returns an error, the registry
is untouched (a fresh hostname still has no connection afterwards), and
the HTTP handler closes the upgraded connection — an identity unknown to
the inventory never obtains a live connection. -/
theorem c10_unknown_host_rejected (s : ServiceState) (h : String) (connID now : Nat)
    (hnode : GetNodeByHostname s.nodes h = none) :
    RegisterConnection s h connID now = Except.error "node not found" ∧
    HandleAgentConnection s h connID now = { s with closed := connID :: s.closed } ∧
    (HandleAgentConnection s h connID now).connections = s.connections ∧
    (lookupConn s h = none → lookupConn (HandleAgentConnection s h connID now) h = none) := by
  have hreg : RegisterConnection s h connID now = Except.error "node not found" := by
    unfold RegisterConnection
    rw [hnode]
  have hhandle : HandleAgentConnection s h connID now = { s with closed := connID :: s.closed } := by
    unfold HandleAgentConnection
    rw [hreg]
  refine ⟨hreg, hhandle, by rw [hhandle], fun hl => ?_⟩
  rw [hhandle]
  exact hl

/-- Witness for C10: the statement evaluated on an inventory that knows
`h2` but not `h1`. -/
theorem c10_unknown_host_witness :
    RegisterConnection c10S "h1" 7 3 = Except.error "node not found" ∧
    HandleAgentConnection c10S "h1" 7 3 = { c10S with closed := 7 :: c10S.closed } ∧
    (HandleAgentConnection c10S "h1" 7 3).connections = c10S.connections ∧
    (lookupConn c10S "h1" = none → lookupConn (HandleAgentConnection c10S "h1" 7 3) "h1" = none) :=
  c10_unknown_host_rejected c10S "h1" 7 3 (by decide)

end Portal
